import Mathlib

/-!
Verification development for the resume generator (`main.py`).

The program maps a structured resume record (personal info, experience,
education, skills, certifications, projects) to a linear sequence of
renderable blocks (paragraphs, spacers, horizontal rules, two-column
lines) and hands the sequence to a rendering engine.

The embedding below translates the data model and every section renderer
from the source.  Mutable `story.append` sequences become explicit state
passing on a `GenState` (the record plus the block list built so far);
`for` loops become `List.foldl`; the external text-measurement service
(`stringWidth`) is an abstract parameter `SW`; point arithmetic is over
`ℚ` (floating point rounding is irrelevant to every property stated
here, which only needs exact field algebra).
-/

/-- Colors used by the program (`reportlab.lib.colors`). -/
inductive Color
  | black
  | darkblue
  | grey
deriving DecidableEq, Repr

/-- The style dictionaries passed inline to `TwoColumnLine` in the source:
`fontName`, `fontSize`, `textColor`. -/
structure TCLStyle where
  fontName : String
  fontSize : ℚ
  textColor : Color
deriving DecidableEq, Repr

/-- One renderable unit appended to the story, as built by the program:
`Paragraph(text, style)` (the style recorded by its stylesheet name),
`Spacer(w, h)`, `HRFlowable(width, thickness, color)`, and the custom
`TwoColumnLine(left, right, left_style, right_style)`. -/
inductive Block
  | paragraph (text : String) (styleName : String)
  | spacer (w h : ℚ)
  | hr (width : String) (thickness : ℚ) (color : Color)
  | twoColumnLine (left_text right_text : String) (left_style right_style : TCLStyle)
deriving DecidableEq, Repr

/-- The `personal` mapping: each field the renderer looks up is optional. -/
structure PersonalInfo where
  name : Option String
  email : Option String
  phone : Option String
  location : Option String
  linkedin : Option String
  github : Option String
  website : Option String
deriving DecidableEq, Repr

/-- One entry of the `experience` list. -/
structure ExperienceEntry where
  company : Option String
  location : Option String
  title : Option String
  duration : Option String
  responsibilities : Option (List String)
deriving DecidableEq, Repr

/-- One entry of the `education` list. -/
structure EducationEntry where
  institution : Option String
  duration : Option String
  degree : Option String
  location : Option String
deriving DecidableEq, Repr

/-- One entry of the `projects` list. -/
structure ProjectEntry where
  name : Option String
  description : Option String
  technologies : Option String
  link : Option String
deriving DecidableEq, Repr

/-- The loaded top-level mapping `self.data`.  A key missing from the
YAML mapping is `none`; a key bound to an empty collection is
`some []` (resp. a `PersonalInfo` with every field `none`). -/
structure ResumeRecord where
  personal : Option PersonalInfo
  experience : Option (List ExperienceEntry)
  education : Option (List EducationEntry)
  skills : Option (List String)
  certifications : Option (List String)
  projects : Option (List ProjectEntry)
deriving DecidableEq, Repr

/-- Generator state threaded through the section renderers: `self.data`
plus the `story` list the Python methods append to in place. -/
structure GenState where
  data : ResumeRecord
  story : List Block
deriving DecidableEq, Repr

/-- `reportlab.lib.units.inch` in points. -/
def inch : ℚ := 72

/-- Abstract text-measurement service: `stringWidth(text, fontName, fontSize)`,
supplied by the rendering engine's font metrics. -/
abbrev SW := String → String → ℚ → ℚ

/-- Alignment code `TA_LEFT` from `reportlab.lib.enums`. -/
def TA_LEFT : Nat := 0

/-- Alignment code `TA_CENTER` from `reportlab.lib.enums`. -/
def TA_CENTER : Nat := 1

/-- Alignment code `TA_RIGHT` from `reportlab.lib.enums`. -/
def TA_RIGHT : Nat := 2

/-- The slice of a `ParagraphStyle` the program configures:
font, size, color, alignment, spacing and indent geometry. -/
structure ParagraphStyle where
  fontName : String
  fontSize : ℚ
  textColor : Color
  alignment : Nat
  spaceBefore : ℚ
  spaceAfter : ℚ
  leftIndent : ℚ
  firstLineIndent : ℚ
deriving DecidableEq, Repr

/-- Base `Normal` style of `getSampleStyleSheet`. -/
def NormalStyle : ParagraphStyle :=
  ⟨"Helvetica", 10, Color.black, TA_LEFT, 0, 0, 0, 0⟩

/-- Base `Heading1` style of `getSampleStyleSheet` (parent of `Name`). -/
def Heading1Style : ParagraphStyle :=
  { NormalStyle with
      fontName := "Helvetica-Bold"
      fontSize := 18
      spaceAfter := 6 }

/-- Base `Heading2` style of `getSampleStyleSheet` (parent of `SectionHeader`). -/
def Heading2Style : ParagraphStyle :=
  { NormalStyle with
      fontName := "Helvetica-Bold"
      fontSize := 14
      spaceBefore := 12
      spaceAfter := 6 }

/-- The custom stylesheet built once by `_setup_custom_styles`, keyed by
style name; `sw` is the text-measurement service used for the hanging
indent of `BulletPoint` (`stringWidth("- ", "Helvetica", 11)`). -/
def stylesheet (sw : SW) : String → ParagraphStyle
  | "Name" =>
    { Heading1Style with
        fontSize := 20
        textColor := Color.darkblue
        spaceAfter := 6
        alignment := TA_CENTER
        fontName := "Helvetica-Bold" }
  | "Contact" =>
    { NormalStyle with
        fontSize := 11
        textColor := Color.black
        spaceAfter := 6
        alignment := TA_CENTER
        fontName := "Helvetica" }
  | "SectionHeader" =>
    { Heading2Style with
        fontSize := 14
        textColor := Color.black
        spaceBefore := 8
        spaceAfter := 1
        fontName := "Helvetica-Bold" }
  | "JobTitle" =>
    { NormalStyle with
        fontSize := 11
        textColor := Color.black
        fontName := "Helvetica-Bold"
        spaceAfter := 2 }
  | "Company" =>
    { NormalStyle with
        fontSize := 11
        textColor := Color.black
        fontName := "Helvetica-Bold"
        spaceAfter := 2 }
  | "DateLocation" =>
    { NormalStyle with
        fontSize := 11
        textColor := Color.grey
        fontName := "Helvetica-Oblique"
        spaceAfter := 4 }
  | "Description" =>
    { NormalStyle with
        fontSize := 11
        textColor := Color.black
        fontName := "Helvetica"
        leftIndent := 0
        spaceAfter := 2 }
  | "BulletPoint" =>
    { NormalStyle with
        fontSize := 11
        textColor := Color.black
        fontName := "Helvetica"
        leftIndent := sw "- " "Helvetica" 11
        firstLineIndent := -(sw "- " "Helvetica" 11)
        spaceAfter := 2 }
  | _ => NormalStyle

/-- The custom flowable `TwoColumnLine`: left and right text with their
inline style dictionaries. -/
structure TwoColumnLine where
  left_text : String
  right_text : String
  left_style : TCLStyle
  right_style : TCLStyle
deriving DecidableEq, Repr

/-- One canvas drawing operation issued by `TwoColumnLine.draw`. -/
inductive DrawOp
  | setFont (fontName : String) (fontSize : ℚ)
  | setFillColor (c : Color)
  | drawString (x y : ℚ) (text : String)
deriving DecidableEq, Repr

/-- `TwoColumnLine.wrap(availWidth, availHeight)`: stores
`self.width := availWidth` and returns `(availWidth, 14)`.  The result
is the stored width paired with the returned `(width, height)`. -/
def TwoColumnLine.wrap (_t : TwoColumnLine) (availWidth _availHeight : ℚ) :
    ℚ × (ℚ × ℚ) :=
  (availWidth, (availWidth, 14))

/-- `TwoColumnLine.draw`: left text at `x = 0`, then the right text at
`x = self.width - stringWidth(right_text, right font, right size)`,
with `self.width` the width stored by `wrap` at layout time. -/
def TwoColumnLine.draw (sw : SW) (t : TwoColumnLine) (width : ℚ) : List DrawOp :=
  [DrawOp.setFont t.left_style.fontName t.left_style.fontSize,
   DrawOp.setFillColor t.left_style.textColor,
   DrawOp.drawString 0 0 t.left_text,
   DrawOp.setFont t.right_style.fontName t.right_style.fontSize,
   DrawOp.setFillColor t.right_style.textColor,
   DrawOp.drawString
     (width - sw t.right_text t.right_style.fontName t.right_style.fontSize)
     0 t.right_text]

/-- Blocks appended by `add_section_separator`: a full-width horizontal
rule of thickness 0.5 and a `0.08 in` spacer (the pre-rule spacer in the
source is commented out). -/
def section_separator_blocks : List Block :=
  [Block.hr "100%" (1/2) Color.black, Block.spacer 1 ((8/100) * inch)]

/-- `add_section_separator(story)`. -/
def add_section_separator (s : GenState) : GenState :=
  ⟨s.data, s.story ++ section_separator_blocks⟩

/-- The `contact_info` list built in `create_personal_section`: the
present fields among email, phone, location, linkedin, github, website,
in that order. -/
def contact_info (p : PersonalInfo) : List String :=
  List.filterMap id [p.email, p.phone, p.location, p.linkedin, p.github, p.website]

/-- `create_personal_section(story)`: returns unchanged when the
`personal` key is absent; otherwise appends the name heading (when
present), one contact line joining the present contact fields with
a bullet glyph (when any is present), and a `0.03 in` spacer. -/
def create_personal_section (s : GenState) : GenState :=
  match s.data.personal with
  | none => s
  | some personal =>
    let s1 : GenState :=
      match personal.name with
      | some n => ⟨s.data, s.story ++ [Block.paragraph n "Name"]⟩
      | none => s
    let s2 : GenState :=
      if contact_info personal = [] then s1
      else
        ⟨s1.data, s1.story ++
          [Block.paragraph (String.intercalate " • " (contact_info personal)) "Contact"]⟩
    ⟨s2.data, s2.story ++ [Block.spacer 1 ((3/100) * inch)]⟩

/-- Body of the `for exp in self.data["experience"]` loop: the
company/location two-column line (only when both present), the
title/duration two-column line (only when both present), one bullet
paragraph per responsibility, then a `0.05 in` spacer. -/
def create_experience_entry (s : GenState) (exp : ExperienceEntry) : GenState :=
  let s1 : GenState :=
    match exp.company, exp.location with
    | some c, some l =>
      ⟨s.data, s.story ++
        [Block.twoColumnLine c l
          ⟨"Helvetica-Bold", 12, Color.black⟩ ⟨"Helvetica", 11, Color.black⟩,
         Block.spacer 1 ((2/100) * inch)]⟩
    | _, _ => s
  let s2 : GenState :=
    match exp.title, exp.duration with
    | some t, some dur =>
      ⟨s1.data, s1.story ++
        [Block.twoColumnLine t dur
          ⟨"Helvetica-Oblique", 11, Color.black⟩ ⟨"Helvetica-Oblique", 11, Color.grey⟩,
         Block.spacer 1 ((4/100) * inch)]⟩
    | _, _ => s1
  let s3 : GenState :=
    match exp.responsibilities with
    | some rs =>
      ⟨s2.data, s2.story ++ rs.map (fun r => Block.paragraph ("- " ++ r) "BulletPoint")⟩
    | none => s2
  ⟨s3.data, s3.story ++ [Block.spacer 1 ((5/100) * inch)]⟩

/-- `create_experience_section(story)`: guard
`"experience" not in self.data or not self.data["experience"]`, then
section header, separator, and the per-entry loop. -/
def create_experience_section (s : GenState) : GenState :=
  match s.data.experience with
  | none => s
  | some exps =>
    if exps = [] then s
    else
      let s1 : GenState :=
        ⟨s.data, s.story ++ [Block.paragraph "PROFESSIONAL EXPERIENCE" "SectionHeader"]⟩
      let s2 := add_section_separator s1
      exps.foldl create_experience_entry s2

/-- Body of the `for edu in self.data["education"]` loop: the
institution/duration two-column line (only when both present, followed
by a `0.02 in` spacer) and the degree/location two-column line (only
when both present, followed by a `0.05 in` spacer). -/
def create_education_entry (s : GenState) (edu : EducationEntry) : GenState :=
  let s1 : GenState :=
    match edu.institution, edu.duration with
    | some i, some dur =>
      ⟨s.data, s.story ++
        [Block.twoColumnLine i dur
          ⟨"Helvetica-Bold", 12, Color.black⟩ ⟨"Helvetica", 11, Color.black⟩,
         Block.spacer 1 ((2/100) * inch)]⟩
    | _, _ => s
  match edu.degree, edu.location with
  | some dg, some l =>
    ⟨s1.data, s1.story ++
      [Block.twoColumnLine dg l
        ⟨"Helvetica-Oblique", 11, Color.black⟩ ⟨"Helvetica-Oblique", 11, Color.grey⟩,
       Block.spacer 1 ((5/100) * inch)]⟩
  | _, _ => s1

/-- `create_education_section(story)`. -/
def create_education_section (s : GenState) : GenState :=
  match s.data.education with
  | none => s
  | some edus =>
    if edus = [] then s
    else
      let s1 : GenState :=
        ⟨s.data, s.story ++ [Block.paragraph "EDUCATION" "SectionHeader"]⟩
      let s2 := add_section_separator s1
      edus.foldl create_education_entry s2

/-- `create_skills_section(story)`: header, separator, one paragraph
joining the skills with a comma and a space, then a `0.1 in` spacer. -/
def create_skills_section (s : GenState) : GenState :=
  match s.data.skills with
  | none => s
  | some skills =>
    if skills = [] then s
    else
      let s1 : GenState :=
        ⟨s.data, s.story ++ [Block.paragraph "TECHNICAL SKILLS" "SectionHeader"]⟩
      let s2 := add_section_separator s1
      ⟨s2.data, s2.story ++
        [Block.paragraph (String.intercalate ", " skills) "Description",
         Block.spacer 1 ((1/10) * inch)]⟩

/-- `create_certifications_section(story)`: header, separator, one
bullet-glyph paragraph per certification (no trailing spacer). -/
def create_certifications_section (s : GenState) : GenState :=
  match s.data.certifications with
  | none => s
  | some certs =>
    if certs = [] then s
    else
      let s1 : GenState :=
        ⟨s.data, s.story ++ [Block.paragraph "CERTIFICATIONS" "SectionHeader"]⟩
      let s2 := add_section_separator s1
      certs.foldl
        (fun st cert => ⟨st.data, st.story ++ [Block.paragraph ("• " ++ cert) "Description"]⟩)
        s2

/-- Body of the `for project in self.data["projects"]` loop: name (bold),
description, technologies, link — each only when present — then a
`0.1 in` spacer. -/
def create_project_entry (s : GenState) (project : ProjectEntry) : GenState :=
  let s1 : GenState :=
    match project.name with
    | some n => ⟨s.data, s.story ++ [Block.paragraph ("<b>" ++ n ++ "</b>") "JobTitle"]⟩
    | none => s
  let s2 : GenState :=
    match project.description with
    | some d => ⟨s1.data, s1.story ++ [Block.paragraph d "Description"]⟩
    | none => s1
  let s3 : GenState :=
    match project.technologies with
    | some t =>
      ⟨s2.data, s2.story ++ [Block.paragraph ("<b>Technologies:</b> " ++ t) "Description"]⟩
    | none => s2
  let s4 : GenState :=
    match project.link with
    | some l => ⟨s3.data, s3.story ++ [Block.paragraph ("<b>Link:</b> " ++ l) "Description"]⟩
    | none => s3
  ⟨s4.data, s4.story ++ [Block.spacer 1 ((1/10) * inch)]⟩

/-- `create_projects_section(story)`: header with no separator call,
then the per-project loop. -/
def create_projects_section (s : GenState) : GenState :=
  match s.data.projects with
  | none => s
  | some ps =>
    if ps = [] then s
    else
      let s1 : GenState :=
        ⟨s.data, s.story ++ [Block.paragraph "PROJECTS" "SectionHeader"]⟩
      ps.foldl create_project_entry s1

/-- The story built by `generate_pdf`: the six section renderers applied
in the fixed order of the source, starting from the empty story. -/
def generate_story (d : ResumeRecord) : List Block :=
  (create_projects_section (create_certifications_section (create_skills_section
    (create_education_section (create_experience_section
      (create_personal_section ⟨d, []⟩)))))).story

/-- Blocks appended for one experience entry, written as one list: the
derived normal form of `create_experience_entry` (proved equal below). -/
def experience_entry_blocks (exp : ExperienceEntry) : List Block :=
  (match exp.company, exp.location with
   | some c, some l =>
     [Block.twoColumnLine c l
       ⟨"Helvetica-Bold", 12, Color.black⟩ ⟨"Helvetica", 11, Color.black⟩,
      Block.spacer 1 ((2/100) * inch)]
   | _, _ => []) ++
  (match exp.title, exp.duration with
   | some t, some dur =>
     [Block.twoColumnLine t dur
       ⟨"Helvetica-Oblique", 11, Color.black⟩ ⟨"Helvetica-Oblique", 11, Color.grey⟩,
      Block.spacer 1 ((4/100) * inch)]
   | _, _ => []) ++
  (match exp.responsibilities with
   | some rs => rs.map (fun r => Block.paragraph ("- " ++ r) "BulletPoint")
   | none => []) ++
  [Block.spacer 1 ((5/100) * inch)]

/-- Blocks appended for one education entry, as one list. -/
def education_entry_blocks (edu : EducationEntry) : List Block :=
  (match edu.institution, edu.duration with
   | some i, some dur =>
     [Block.twoColumnLine i dur
       ⟨"Helvetica-Bold", 12, Color.black⟩ ⟨"Helvetica", 11, Color.black⟩,
      Block.spacer 1 ((2/100) * inch)]
   | _, _ => []) ++
  (match edu.degree, edu.location with
   | some dg, some l =>
     [Block.twoColumnLine dg l
       ⟨"Helvetica-Oblique", 11, Color.black⟩ ⟨"Helvetica-Oblique", 11, Color.grey⟩,
      Block.spacer 1 ((5/100) * inch)]
   | _, _ => [])

/-- Blocks appended for one project entry, as one list. -/
def project_entry_blocks (project : ProjectEntry) : List Block :=
  (match project.name with
   | some n => [Block.paragraph ("<b>" ++ n ++ "</b>") "JobTitle"]
   | none => []) ++
  (match project.description with
   | some d => [Block.paragraph d "Description"]
   | none => []) ++
  (match project.technologies with
   | some t => [Block.paragraph ("<b>Technologies:</b> " ++ t) "Description"]
   | none => []) ++
  (match project.link with
   | some l => [Block.paragraph ("<b>Link:</b> " ++ l) "Description"]
   | none => []) ++
  [Block.spacer 1 ((1/10) * inch)]

/-- Blocks appended by the personal section, as one list. -/
def personal_blocks (personal? : Option PersonalInfo) : List Block :=
  match personal? with
  | none => []
  | some personal =>
    (match personal.name with
     | some n => [Block.paragraph n "Name"]
     | none => []) ++
    (if contact_info personal = [] then []
     else [Block.paragraph (String.intercalate " • " (contact_info personal)) "Contact"]) ++
    [Block.spacer 1 ((3/100) * inch)]

/-- Blocks appended by the experience section, as one list. -/
def experience_blocks (experience? : Option (List ExperienceEntry)) : List Block :=
  match experience? with
  | none => []
  | some exps =>
    if exps = [] then []
    else
      Block.paragraph "PROFESSIONAL EXPERIENCE" "SectionHeader" ::
        (section_separator_blocks ++ (exps.map experience_entry_blocks).flatten)

/-- Blocks appended by the education section, as one list. -/
def education_blocks (education? : Option (List EducationEntry)) : List Block :=
  match education? with
  | none => []
  | some edus =>
    if edus = [] then []
    else
      Block.paragraph "EDUCATION" "SectionHeader" ::
        (section_separator_blocks ++ (edus.map education_entry_blocks).flatten)

/-- Blocks appended by the skills section, as one list. -/
def skills_blocks (skills? : Option (List String)) : List Block :=
  match skills? with
  | none => []
  | some skills =>
    if skills = [] then []
    else
      Block.paragraph "TECHNICAL SKILLS" "SectionHeader" ::
        (section_separator_blocks ++
          [Block.paragraph (String.intercalate ", " skills) "Description",
           Block.spacer 1 ((1/10) * inch)])

/-- Blocks appended by the certifications section, as one list. -/
def certifications_blocks (certifications? : Option (List String)) : List Block :=
  match certifications? with
  | none => []
  | some certs =>
    if certs = [] then []
    else
      Block.paragraph "CERTIFICATIONS" "SectionHeader" ::
        (section_separator_blocks ++
          certs.map (fun cert => Block.paragraph ("• " ++ cert) "Description"))

/-- Blocks appended by the projects section, as one list (note: no
separator after the header). -/
def projects_blocks (projects? : Option (List ProjectEntry)) : List Block :=
  match projects? with
  | none => []
  | some ps =>
    if ps = [] then []
    else
      Block.paragraph "PROJECTS" "SectionHeader" :: (ps.map project_entry_blocks).flatten

/-- Tests whether a block is a `TwoColumnLine`. -/
def isTwoColumnLine : Block → Bool
  | Block.twoColumnLine _ _ _ _ => true
  | _ => false

/-- Tests whether a block is an `HRFlowable`. -/
def isHR : Block → Bool
  | Block.hr _ _ _ => true
  | _ => false

/-- Tests whether a block is a `Spacer`. -/
def isSpacer : Block → Bool
  | Block.spacer _ _ => true
  | _ => false

/-- The stylesheet name of a paragraph block, `none` for other blocks. -/
def blockStyle : Block → Option String
  | Block.paragraph _ st => some st
  | _ => none

/-- One binding of the top-level YAML mapping, before field lookup: the
constructor plays the role of the key, its argument the value.  Used to
state key-order invariance of the loaded record. -/
inductive TopEntry
  | personalE (v : PersonalInfo)
  | experienceE (v : List ExperienceEntry)
  | educationE (v : List EducationEntry)
  | skillsE (v : List String)
  | certificationsE (v : List String)
  | projectsE (v : List ProjectEntry)
deriving DecidableEq, Repr

/-- The key string of a top-level binding. -/
def TopEntry.key : TopEntry → String
  | TopEntry.personalE _ => "personal"
  | TopEntry.experienceE _ => "experience"
  | TopEntry.educationE _ => "education"
  | TopEntry.skillsE _ => "skills"
  | TopEntry.certificationsE _ => "certifications"
  | TopEntry.projectsE _ => "projects"

/-- Selects a `personal` binding. -/
def TopEntry.personalV : TopEntry → Option PersonalInfo
  | TopEntry.personalE v => some v
  | _ => none

/-- Selects an `experience` binding. -/
def TopEntry.experienceV : TopEntry → Option (List ExperienceEntry)
  | TopEntry.experienceE v => some v
  | _ => none

/-- Selects an `education` binding. -/
def TopEntry.educationV : TopEntry → Option (List EducationEntry)
  | TopEntry.educationE v => some v
  | _ => none

/-- Selects a `skills` binding. -/
def TopEntry.skillsV : TopEntry → Option (List String)
  | TopEntry.skillsE v => some v
  | _ => none

/-- Selects a `certifications` binding. -/
def TopEntry.certificationsV : TopEntry → Option (List String)
  | TopEntry.certificationsE v => some v
  | _ => none

/-- Selects a `projects` binding. -/
def TopEntry.projectsV : TopEntry → Option (List ProjectEntry)
  | TopEntry.projectsE v => some v
  | _ => none

/-- Loads the `self.data` record from a top-level binding list by key
lookup (first binding wins), as a mapping lookup ignores the order in
which the keys were written. -/
def ResumeRecord.ofRaw (raw : List TopEntry) : ResumeRecord :=
  ⟨(raw.filterMap TopEntry.personalV).head?,
   (raw.filterMap TopEntry.experienceV).head?,
   (raw.filterMap TopEntry.educationV).head?,
   (raw.filterMap TopEntry.skillsV).head?,
   (raw.filterMap TopEntry.certificationsV).head?,
   (raw.filterMap TopEntry.projectsV).head?⟩

/-- The configured input path (`ResumeGenerator.__init__` default). -/
def input_file : String := "resume_data.yaml"

/-- The configured output path (`ResumeGenerator.__init__` default). -/
def output_file : String := "Generated_Resume.pdf"

/-- The two exception shapes `main` distinguishes: `FileNotFoundError`
and any other exception, each carrying its message. -/
inductive PyError
  | fileNotFound (msg : String)
  | other (msg : String)
deriving DecidableEq, Repr

/-- The environment of one run: whether the input path exists, what the
YAML parser would return for its content (`none` = a parse error, whose
message text comes from the external YAML library and is not modelled),
and whether the rendering engine's `doc.build` succeeds (its failure
message text is likewise external). -/
structure World where
  inputExists : Bool
  parseResult : Option ResumeRecord
  buildOk : Bool

/-- `parse_input_file`: raises `FileNotFoundError` with a message naming
the configured input file when the path does not exist, otherwise
parses the file. -/
def parse_input_file (w : World) : Except PyError ResumeRecord :=
  if w.inputExists = false then
    Except.error (PyError.fileNotFound ("Input file " ++ input_file ++ " not found!"))
  else
    match w.parseResult with
    | some d => Except.ok d
    | none => Except.error (PyError.other "invalid YAML input")

/-- `generate_pdf`: builds the story and hands it to the rendering
engine; on success the output file is written and a success line is
printed. -/
def generate_pdf (w : World) (d : ResumeRecord) : Except PyError (List Block) :=
  if w.buildOk then Except.ok (generate_story d)
  else Except.error (PyError.other "build failed")

/-- Observable outcome of one `main()` run: the process exit code, the
lines printed, and whether the output document was written.  A build
failure may leave a truncated file on disk; only a completed write
counts as `outputWritten` here, and no claim depends on the state of a
partially written file. -/
structure RunResult where
  exitCode : Nat
  printed : List String
  outputWritten : Bool
deriving Repr

/-- The program's `main()` (the name `main` itself is reserved by Lean):
parse, then generate, catching `FileNotFoundError` and any other
exception and mapping both to exit code 1. -/
def main_run (w : World) : RunResult :=
  let printed0 := ["Parsing input data..."]
  match parse_input_file w with
  | Except.error (PyError.fileNotFound m) =>
    ⟨1, printed0 ++ ["Error: " ++ m,
                     "Please ensure resume_data.yaml exists with your resume data"], false⟩
  | Except.error (PyError.other m) =>
    ⟨1, printed0 ++ ["Error generating resume: " ++ m], false⟩
  | Except.ok d =>
    let printed1 := printed0 ++ ["Generating PDF..."]
    match generate_pdf w d with
    | Except.error (PyError.fileNotFound m) =>
      ⟨1, printed1 ++ ["Error: " ++ m,
                       "Please ensure resume_data.yaml exists with your resume data"], false⟩
    | Except.error (PyError.other m) =>
      ⟨1, printed1 ++ ["Error generating resume: " ++ m], false⟩
    | Except.ok _ =>
      ⟨0, printed1 ++ ["Resume generated successfully: " ++ output_file,
                       "Resume generation completed successfully!"], true⟩

/-- Needle occurs as a contiguous substring of the haystack. -/
def occursIn (needle hay : String) : Prop :=
  ∃ a b, hay = a ++ needle ++ b

/-- A `PersonalInfo` with every field absent: the value loaded for an
empty `personal:` mapping. -/
def emptyPersonal : PersonalInfo := ⟨none, none, none, none, none, none, none⟩

/-- A record whose only key is an empty `personal` mapping. -/
def emptyPersonalRecord : ResumeRecord := ⟨some emptyPersonal, none, none, none, none, none⟩

/-- The record of the specification's scenario: only a name and an email. -/
def janeRecord : ResumeRecord :=
  ⟨some ⟨some "Jane Doe", some "jane@x.com", none, none, none, none, none⟩,
   none, none, none, none, none⟩

/-- A record with no keys at all. -/
def noKeysRecord : ResumeRecord := ⟨none, none, none, none, none, none⟩

/-- A record with every section key present but bound to an empty value. -/
def allEmptyRecord : ResumeRecord :=
  ⟨some emptyPersonal, some [], some [], some [], some [], some []⟩

/-- The experience entry of the specification's scenario: company and
title present, location and duration absent, one responsibility. -/
def acmeEntry : ExperienceEntry :=
  ⟨some "ACME", none, some "Engineer", none, some ["Built things"]⟩

/-- A concrete text-measurement service for evaluating witnesses: each
character one point wide. -/
def swLen : SW := fun s _ _ => (s.length : ℚ)

/-- A concrete two-column line for evaluating witnesses. -/
def tclSample : TwoColumnLine :=
  ⟨"AB", "CD", ⟨"Helvetica", 11, Color.black⟩, ⟨"Helvetica", 11, Color.black⟩⟩

/-- A fold whose step appends a per-element block list appends the
flattened per-element lists and preserves the record. -/
lemma foldl_append_eq {α : Type} (f : GenState → α → GenState) (g : α → List Block)
    (hf : ∀ s a, f s a = ⟨s.data, s.story ++ g a⟩) :
    ∀ (l : List α) (s : GenState), l.foldl f s = ⟨s.data, s.story ++ (l.map g).flatten⟩ := by
  intro l
  induction l with
  | nil => intro s; cases s; simp
  | cons a t ih =>
    intro s
    rw [List.foldl_cons, hf, ih]
    simp [List.append_assoc]

/-- The experience-entry loop body appends exactly
`experience_entry_blocks` and preserves the record. -/
lemma create_experience_entry_eq (s : GenState) (exp : ExperienceEntry) :
    create_experience_entry s exp = ⟨s.data, s.story ++ experience_entry_blocks exp⟩ := by
  rcases s with ⟨d, story⟩
  rcases exp with ⟨c, l, t, dur, rs⟩
  cases c <;> cases l <;> cases t <;> cases dur <;> cases rs <;>
    simp [create_experience_entry, experience_entry_blocks, List.append_assoc]

/-- The education-entry loop body appends exactly
`education_entry_blocks` and preserves the record. -/
lemma create_education_entry_eq (s : GenState) (edu : EducationEntry) :
    create_education_entry s edu = ⟨s.data, s.story ++ education_entry_blocks edu⟩ := by
  rcases s with ⟨d, story⟩
  rcases edu with ⟨i, dur, dg, l⟩
  cases i <;> cases dur <;> cases dg <;> cases l <;>
    simp [create_education_entry, education_entry_blocks, List.append_assoc]

/-- The project-entry loop body appends exactly `project_entry_blocks`
and preserves the record. -/
lemma create_project_entry_eq (s : GenState) (project : ProjectEntry) :
    create_project_entry s project = ⟨s.data, s.story ++ project_entry_blocks project⟩ := by
  rcases s with ⟨d, story⟩
  rcases project with ⟨n, de, t, l⟩
  cases n <;> cases de <;> cases t <;> cases l <;>
    simp [create_project_entry, project_entry_blocks, List.append_assoc]

/-- The personal renderer appends exactly `personal_blocks` and
preserves the record. -/
lemma create_personal_section_eq (s : GenState) :
    create_personal_section s = ⟨s.data, s.story ++ personal_blocks s.data.personal⟩ := by
  rcases s with ⟨⟨p0, e0, ed0, sk0, ce0, pr0⟩, story⟩
  cases p0 with
  | none => simp [create_personal_section, personal_blocks]
  | some p =>
    cases hn : p.name <;> by_cases hc : contact_info p = [] <;>
      simp [create_personal_section, personal_blocks, hn, hc, List.append_assoc]

/-- The experience renderer appends exactly `experience_blocks` and
preserves the record. -/
lemma create_experience_section_eq (s : GenState) :
    create_experience_section s = ⟨s.data, s.story ++ experience_blocks s.data.experience⟩ := by
  rcases s with ⟨⟨p0, e0, ed0, sk0, ce0, pr0⟩, story⟩
  cases e0 with
  | none => simp [create_experience_section, experience_blocks]
  | some exps =>
    by_cases h : exps = []
    · simp [create_experience_section, experience_blocks, h]
    · simp [create_experience_section, experience_blocks, h, add_section_separator,
        foldl_append_eq create_experience_entry experience_entry_blocks
          create_experience_entry_eq,
        List.append_assoc]

/-- The education renderer appends exactly `education_blocks` and
preserves the record. -/
lemma create_education_section_eq (s : GenState) :
    create_education_section s = ⟨s.data, s.story ++ education_blocks s.data.education⟩ := by
  rcases s with ⟨⟨p0, e0, ed0, sk0, ce0, pr0⟩, story⟩
  cases ed0 with
  | none => simp [create_education_section, education_blocks]
  | some edus =>
    by_cases h : edus = []
    · simp [create_education_section, education_blocks, h]
    · simp [create_education_section, education_blocks, h, add_section_separator,
        foldl_append_eq create_education_entry education_entry_blocks
          create_education_entry_eq,
        List.append_assoc]

/-- The skills renderer appends exactly `skills_blocks` and preserves
the record. -/
lemma create_skills_section_eq (s : GenState) :
    create_skills_section s = ⟨s.data, s.story ++ skills_blocks s.data.skills⟩ := by
  rcases s with ⟨⟨p0, e0, ed0, sk0, ce0, pr0⟩, story⟩
  cases sk0 with
  | none => simp [create_skills_section, skills_blocks]
  | some skills =>
    by_cases h : skills = [] <;>
      simp [create_skills_section, skills_blocks, h, add_section_separator,
        List.append_assoc]

/-- Flattening singleton lists is mapping. -/
lemma flatten_map_singleton {α β : Type} (f : α → β) :
    ∀ l : List α, (l.map (fun a => [f a])).flatten = l.map f := by
  intro l
  induction l with
  | nil => rfl
  | cons a t ih => simp [ih]

/-- The certifications renderer appends exactly `certifications_blocks`
and preserves the record. -/
lemma create_certifications_section_eq (s : GenState) :
    create_certifications_section s =
      ⟨s.data, s.story ++ certifications_blocks s.data.certifications⟩ := by
  rcases s with ⟨⟨p0, e0, ed0, sk0, ce0, pr0⟩, story⟩
  cases ce0 with
  | none => simp [create_certifications_section, certifications_blocks]
  | some certs =>
    by_cases h : certs = []
    · simp [create_certifications_section, certifications_blocks, h]
    · simp [create_certifications_section, certifications_blocks, h, add_section_separator,
        foldl_append_eq _
          (fun cert => [Block.paragraph ("• " ++ cert) "Description"]) (fun _ _ => rfl),
        flatten_map_singleton, List.append_assoc]

/-- The projects renderer appends exactly `projects_blocks` and
preserves the record. -/
lemma create_projects_section_eq (s : GenState) :
    create_projects_section s = ⟨s.data, s.story ++ projects_blocks s.data.projects⟩ := by
  rcases s with ⟨⟨p0, e0, ed0, sk0, ce0, pr0⟩, story⟩
  cases pr0 with
  | none => simp [create_projects_section, projects_blocks]
  | some ps =>
    by_cases h : ps = []
    · simp [create_projects_section, projects_blocks, h]
    · simp [create_projects_section, projects_blocks, h,
        foldl_append_eq create_project_entry project_entry_blocks create_project_entry_eq,
        List.append_assoc]

/-- The full story decomposes into the six section block lists in the
fixed source order. -/
lemma generate_story_eq (d : ResumeRecord) :
    generate_story d =
      personal_blocks d.personal ++ experience_blocks d.experience ++
      education_blocks d.education ++ skills_blocks d.skills ++
      certifications_blocks d.certifications ++ projects_blocks d.projects := by
  simp [generate_story, create_personal_section_eq, create_experience_section_eq,
    create_education_section_eq, create_skills_section_eq,
    create_certifications_section_eq, create_projects_section_eq, List.append_assoc]

/-- Permutations of lists with at most one element are equalities. -/
lemma perm_eq_of_length_le_one {β : Type} {l1 l2 : List β}
    (h : l1.Perm l2) (hl : l1.length ≤ 1) : l1 = l2 := by
  cases l1 with
  | nil => exact h.nil_eq
  | cons a t =>
    cases t with
    | nil => exact List.singleton_perm.mp h
    | cons b t2 => exact absurd hl (by simp)

/-- If every binding a selector accepts carries one fixed key, then on a
binding list with pairwise distinct keys the selector fires at most
once. -/
lemma length_filterMap_le_one {β : Type} (f : TopEntry → Option β) (k : String)
    (hf : ∀ e : TopEntry, (f e).isSome → e.key = k) :
    ∀ l : List TopEntry, (l.map TopEntry.key).Nodup → (l.filterMap f).length ≤ 1 := by
  intro l
  induction l with
  | nil => intro _; simp
  | cons e t ih =>
    intro hnd
    rw [List.map_cons, List.nodup_cons] at hnd
    obtain ⟨hk, hnd2⟩ := hnd
    cases hfe : f e with
    | none => simpa [List.filterMap_cons, hfe] using ih hnd2
    | some b =>
      have ht : t.filterMap f = [] := by
        rw [List.filterMap_eq_nil_iff]
        intro e2 he2
        cases hfe2 : f e2 with
        | none => rfl
        | some b2 =>
          exfalso
          have h1 : e2.key = k := hf e2 (by simp [hfe2])
          have h2 : e.key = k := hf e (by simp [hfe])
          exact hk (by rw [h2, ← h1]; exact List.mem_map_of_mem TopEntry.key he2)
      simp [List.filterMap_cons, hfe, ht]

/-- Key lookup through a selector is invariant under permutation of the
bindings when the keys are pairwise distinct. -/
lemma head?_filterMap_eq_of_perm {β : Type} (f : TopEntry → Option β) (k : String)
    (hf : ∀ e : TopEntry, (f e).isSome → e.key = k)
    {l1 l2 : List TopEntry} (hp : l1.Perm l2)
    (hnd : (l1.map TopEntry.key).Nodup) :
    (l1.filterMap f).head? = (l2.filterMap f).head? := by
  rw [perm_eq_of_length_le_one (hp.filterMap f) (length_filterMap_le_one f k hf l1 hnd)]

/-- Loading the record ignores the order of the top-level bindings. -/
lemma ofRaw_eq_of_perm {l1 l2 : List TopEntry} (hp : l1.Perm l2)
    (hnd : (l1.map TopEntry.key).Nodup) :
    ResumeRecord.ofRaw l1 = ResumeRecord.ofRaw l2 := by
  have h1 := head?_filterMap_eq_of_perm TopEntry.personalV "personal"
    (fun e he => by cases e <;> simp_all [TopEntry.personalV, TopEntry.key]) hp hnd
  have h2 := head?_filterMap_eq_of_perm TopEntry.experienceV "experience"
    (fun e he => by cases e <;> simp_all [TopEntry.experienceV, TopEntry.key]) hp hnd
  have h3 := head?_filterMap_eq_of_perm TopEntry.educationV "education"
    (fun e he => by cases e <;> simp_all [TopEntry.educationV, TopEntry.key]) hp hnd
  have h4 := head?_filterMap_eq_of_perm TopEntry.skillsV "skills"
    (fun e he => by cases e <;> simp_all [TopEntry.skillsV, TopEntry.key]) hp hnd
  have h5 := head?_filterMap_eq_of_perm TopEntry.certificationsV "certifications"
    (fun e he => by cases e <;> simp_all [TopEntry.certificationsV, TopEntry.key]) hp hnd
  have h6 := head?_filterMap_eq_of_perm TopEntry.projectsV "projects"
    (fun e he => by cases e <;> simp_all [TopEntry.projectsV, TopEntry.key]) hp hnd
  simp [ResumeRecord.ofRaw, h1, h2, h3, h4, h5, h6]

/-- No project-entry block is a horizontal rule. -/
lemma project_entry_blocks_no_hr (p : ProjectEntry) :
    ∀ b ∈ project_entry_blocks p, isHR b = false := by
  rcases p with ⟨n, de, t, l⟩
  cases n <;> cases de <;> cases t <;> cases l <;>
    simp [project_entry_blocks, isHR]

/-- Claim C1, counterexample: the claim quantifies over sections with an
absent-or-empty governing key and asserts that nothing at all is
appended, spacers included; but on a record whose `personal` key is
present and bound to an empty mapping, `create_personal_section` still
appends one spacer, because its guard checks only key absence, not
emptiness. -/
theorem C1_counterexample :
    create_personal_section ⟨emptyPersonalRecord, []⟩ ≠ ⟨emptyPersonalRecord, []⟩ ∧
    (create_personal_section ⟨emptyPersonalRecord, []⟩).story =
      [Block.spacer 1 ((3/100) * inch)] := by
  have h1 : (create_personal_section ⟨emptyPersonalRecord, []⟩).story =
      [Block.spacer 1 ((3/100) * inch)] := rfl
  refine ⟨fun h => ?_, h1⟩
  rw [h] at h1
  simp at h1

/-- Claim C1 as amended: for the experience, education, skills,
certifications and projects sections an absent or empty governing key
appends nothing at all; for the personal section an absent key appends
nothing, but a present-and-empty personal mapping appends exactly one
spacer (still no header, separator or text line). -/
theorem C1_amended :
    (∀ s : GenState, s.data.personal = none → create_personal_section s = s) ∧
    (∀ s : GenState, s.data.experience = none ∨ s.data.experience = some [] →
      create_experience_section s = s) ∧
    (∀ s : GenState, s.data.education = none ∨ s.data.education = some [] →
      create_education_section s = s) ∧
    (∀ s : GenState, s.data.skills = none ∨ s.data.skills = some [] →
      create_skills_section s = s) ∧
    (∀ s : GenState, s.data.certifications = none ∨ s.data.certifications = some [] →
      create_certifications_section s = s) ∧
    (∀ s : GenState, s.data.projects = none ∨ s.data.projects = some [] →
      create_projects_section s = s) ∧
    (∀ s : GenState, s.data.personal = some emptyPersonal →
      create_personal_section s = ⟨s.data, s.story ++ [Block.spacer 1 ((3/100) * inch)]⟩) := by
  refine ⟨?_, ?_, ?_, ?_, ?_, ?_, ?_⟩
  · intro s h
    rcases s with ⟨d, story⟩
    simp_all [create_personal_section_eq, personal_blocks]
  · intro s h
    rcases s with ⟨d, story⟩
    rcases h with h | h <;> simp_all [create_experience_section_eq, experience_blocks]
  · intro s h
    rcases s with ⟨d, story⟩
    rcases h with h | h <;> simp_all [create_education_section_eq, education_blocks]
  · intro s h
    rcases s with ⟨d, story⟩
    rcases h with h | h <;> simp_all [create_skills_section_eq, skills_blocks]
  · intro s h
    rcases s with ⟨d, story⟩
    rcases h with h | h <;> simp_all [create_certifications_section_eq, certifications_blocks]
  · intro s h
    rcases s with ⟨d, story⟩
    rcases h with h | h <;> simp_all [create_projects_section_eq, projects_blocks]
  · intro s h
    rcases s with ⟨d, story⟩
    simp_all [create_personal_section_eq, personal_blocks, emptyPersonal, contact_info]

/-- Claim C1, witness: the amended statement evaluated on a record with
no keys, a record whose five collection keys are all empty, and a
record with an empty personal mapping. -/
theorem C1_amended_witness :
    create_personal_section ⟨noKeysRecord, []⟩ = ⟨noKeysRecord, []⟩ ∧
    create_experience_section ⟨allEmptyRecord, []⟩ = ⟨allEmptyRecord, []⟩ ∧
    create_education_section ⟨allEmptyRecord, []⟩ = ⟨allEmptyRecord, []⟩ ∧
    create_skills_section ⟨allEmptyRecord, []⟩ = ⟨allEmptyRecord, []⟩ ∧
    create_certifications_section ⟨allEmptyRecord, []⟩ = ⟨allEmptyRecord, []⟩ ∧
    create_projects_section ⟨allEmptyRecord, []⟩ = ⟨allEmptyRecord, []⟩ ∧
    create_personal_section ⟨emptyPersonalRecord, []⟩ =
      ⟨emptyPersonalRecord, [Block.spacer 1 ((3/100) * inch)]⟩ :=
  ⟨C1_amended.1 ⟨noKeysRecord, []⟩ rfl,
   C1_amended.2.1 ⟨allEmptyRecord, []⟩ (Or.inr rfl),
   C1_amended.2.2.1 ⟨allEmptyRecord, []⟩ (Or.inr rfl),
   C1_amended.2.2.2.1 ⟨allEmptyRecord, []⟩ (Or.inr rfl),
   C1_amended.2.2.2.2.1 ⟨allEmptyRecord, []⟩ (Or.inr rfl),
   C1_amended.2.2.2.2.2.1 ⟨allEmptyRecord, []⟩ (Or.inr rfl),
   C1_amended.2.2.2.2.2.2 ⟨emptyPersonalRecord, []⟩ rfl⟩

/-- Claim C10: every section renderer leaves the loaded record unchanged
and only appends to the story: the blocks already present stay, in
order and position, as a prefix of the result. -/
theorem C10_frame_only_appends :
    ∀ s : GenState,
      ((create_personal_section s).data = s.data ∧
        ∃ t, (create_personal_section s).story = s.story ++ t) ∧
      ((create_experience_section s).data = s.data ∧
        ∃ t, (create_experience_section s).story = s.story ++ t) ∧
      ((create_education_section s).data = s.data ∧
        ∃ t, (create_education_section s).story = s.story ++ t) ∧
      ((create_skills_section s).data = s.data ∧
        ∃ t, (create_skills_section s).story = s.story ++ t) ∧
      ((create_certifications_section s).data = s.data ∧
        ∃ t, (create_certifications_section s).story = s.story ++ t) ∧
      ((create_projects_section s).data = s.data ∧
        ∃ t, (create_projects_section s).story = s.story ++ t) := by
  intro s
  rw [create_personal_section_eq, create_experience_section_eq, create_education_section_eq,
    create_skills_section_eq, create_certifications_section_eq, create_projects_section_eq]
  exact ⟨⟨rfl, _, rfl⟩, ⟨rfl, _, rfl⟩, ⟨rfl, _, rfl⟩, ⟨rfl, _, rfl⟩, ⟨rfl, _, rfl⟩, ⟨rfl, _, rfl⟩⟩

/-- Claim C2: within the blocks appended for one experience entry, the
company/location two-column line appears exactly when both company and
location are present, and the title/duration line exactly when both
title and duration are present; the same both-fields rule holds for
education's institution/duration and degree/location pairs.  On the
scenario entry — company and title present, location and duration
absent, one responsibility — no two-column line is appended and the
only non-spacer block is the responsibility bullet. -/
theorem C2_two_column_pairing :
    (∀ exp : ExperienceEntry,
      (experience_entry_blocks exp).filter isTwoColumnLine =
        (match exp.company, exp.location with
         | some c, some l =>
           [Block.twoColumnLine c l
             ⟨"Helvetica-Bold", 12, Color.black⟩ ⟨"Helvetica", 11, Color.black⟩]
         | _, _ => []) ++
        (match exp.title, exp.duration with
         | some t, some dur =>
           [Block.twoColumnLine t dur
             ⟨"Helvetica-Oblique", 11, Color.black⟩ ⟨"Helvetica-Oblique", 11, Color.grey⟩]
         | _, _ => [])) ∧
    (∀ edu : EducationEntry,
      (education_entry_blocks edu).filter isTwoColumnLine =
        (match edu.institution, edu.duration with
         | some i, some dur =>
           [Block.twoColumnLine i dur
             ⟨"Helvetica-Bold", 12, Color.black⟩ ⟨"Helvetica", 11, Color.black⟩]
         | _, _ => []) ++
        (match edu.degree, edu.location with
         | some dg, some l =>
           [Block.twoColumnLine dg l
             ⟨"Helvetica-Oblique", 11, Color.black⟩ ⟨"Helvetica-Oblique", 11, Color.grey⟩]
         | _, _ => [])) ∧
    (experience_entry_blocks acmeEntry).filter isTwoColumnLine = [] ∧
    (experience_entry_blocks acmeEntry).filter (fun b => !(isSpacer b)) =
      [Block.paragraph "- Built things" "BulletPoint"] := by
  refine ⟨?_, ?_, ?_, ?_⟩
  · intro exp
    rcases exp with ⟨c, l, t, dur, rs⟩
    cases c <;> cases l <;> cases t <;> cases dur <;> cases rs <;>
      simp [experience_entry_blocks, isTwoColumnLine, List.filter_map, Function.comp]
  · intro edu
    rcases edu with ⟨i, dur, dg, l⟩
    cases i <;> cases dur <;> cases dg <;> cases l <;>
      simp [education_entry_blocks, isTwoColumnLine]
  · rfl
  · rfl

/-- Claim C3: loading the top-level mapping is invariant under
permutation of its bindings (for genuine mappings, whose keys are
pairwise distinct), and the produced story is always the six section
block lists concatenated in the fixed order Personal, Experience,
Education, Skills, Certifications, Projects. -/
theorem C3_section_order :
    (∀ raw1 raw2 : List TopEntry, raw1.Perm raw2 → (raw1.map TopEntry.key).Nodup →
      generate_story (ResumeRecord.ofRaw raw1) = generate_story (ResumeRecord.ofRaw raw2)) ∧
    (∀ d : ResumeRecord,
      generate_story d =
        personal_blocks d.personal ++ experience_blocks d.experience ++
        education_blocks d.education ++ skills_blocks d.skills ++
        certifications_blocks d.certifications ++ projects_blocks d.projects) := by
  constructor
  · intro raw1 raw2 hp hnd
    rw [ofRaw_eq_of_perm hp hnd]
  · exact generate_story_eq

/-- Claim C3, witness: two bindings written in either order load to the
same story. -/
theorem C3_section_order_witness :
    generate_story (ResumeRecord.ofRaw
      [TopEntry.skillsE ["Python"],
       TopEntry.personalE ⟨some "Jane Doe", none, none, none, none, none, none⟩]) =
    generate_story (ResumeRecord.ofRaw
      [TopEntry.personalE ⟨some "Jane Doe", none, none, none, none, none, none⟩,
       TopEntry.skillsE ["Python"]]) :=
  C3_section_order.1 _ _ (by decide) (by decide)

/-- Claim C4: for any measurement service, any two-column line and any
available width at least the sum of the measured widths of the two
strings, `wrap` stores exactly the supplied width and reports the
constant height 14; `draw` places the left string at `x = 0` and the
right string at `x = width − measured_right_width` using the stored
width, so the right edge satisfies `right_x + measured_right_width = W`
exactly. -/
theorem C4_two_column_geometry :
    ∀ (sw : SW) (t : TwoColumnLine) (W H : ℚ),
      sw t.left_text t.left_style.fontName t.left_style.fontSize +
        sw t.right_text t.right_style.fontName t.right_style.fontSize ≤ W →
      (t.wrap W H).1 = W ∧
      (t.wrap W H).2.2 = 14 ∧
      DrawOp.drawString 0 0 t.left_text ∈ t.draw sw (t.wrap W H).1 ∧
      DrawOp.drawString
          ((t.wrap W H).1 - sw t.right_text t.right_style.fontName t.right_style.fontSize)
          0 t.right_text ∈ t.draw sw (t.wrap W H).1 ∧
      ((t.wrap W H).1 - sw t.right_text t.right_style.fontName t.right_style.fontSize) +
          sw t.right_text t.right_style.fontName t.right_style.fontSize = W := by
  intro sw t W H _h
  have hw : (t.wrap W H).1 = W := rfl
  refine ⟨hw, rfl, ?_, ?_, ?_⟩
  · simp [TwoColumnLine.draw]
  · simp [TwoColumnLine.draw]
  · rw [hw]
    ring

/-- Claim C4, witness: the geometry evaluated on a concrete line, width
and measurement service. -/
theorem C4_two_column_geometry_witness :
    (tclSample.wrap 100 14).1 = 100 ∧
    (tclSample.wrap 100 14).2.2 = 14 ∧
    DrawOp.drawString 0 0 tclSample.left_text ∈ tclSample.draw swLen (tclSample.wrap 100 14).1 ∧
    DrawOp.drawString
        ((tclSample.wrap 100 14).1 -
          swLen tclSample.right_text tclSample.right_style.fontName tclSample.right_style.fontSize)
        0 tclSample.right_text ∈ tclSample.draw swLen (tclSample.wrap 100 14).1 ∧
    ((tclSample.wrap 100 14).1 -
        swLen tclSample.right_text tclSample.right_style.fontName tclSample.right_style.fontSize) +
      swLen tclSample.right_text tclSample.right_style.fontName tclSample.right_style.fontSize =
        100 :=
  C4_two_column_geometry swLen tclSample 100 14 (by
    have h1 : "AB".length = 2 := rfl
    have h2 : "CD".length = 2 := rfl
    norm_num [swLen, tclSample, h1, h2])

/-- Claim C5: the personal section renders the name, when present, as
the single `Name`-styled heading (a centered style), and the present
contact fields, joined by the separator glyph in the fixed order email,
phone, location, linkedin, github, website, as exactly one
`Contact`-styled centered line; on the record holding only a name and
an email, the story is exactly the name heading, the contact line
reading the bare email, and the trailing spacer — with no section
header anywhere. -/
theorem C5_personal_section :
    (∀ sw : SW, (stylesheet sw "Name").alignment = TA_CENTER ∧
      (stylesheet sw "Contact").alignment = TA_CENTER) ∧
    (∀ p : PersonalInfo,
      (personal_blocks (some p)).filter (fun b => blockStyle b == some "Name") =
        (match p.name with
         | some n => [Block.paragraph n "Name"]
         | none => []) ∧
      (personal_blocks (some p)).filter (fun b => blockStyle b == some "Contact") =
        (if contact_info p = [] then []
         else [Block.paragraph (String.intercalate " • " (contact_info p)) "Contact"])) ∧
    generate_story janeRecord =
      [Block.paragraph "Jane Doe" "Name",
       Block.paragraph "jane@x.com" "Contact",
       Block.spacer 1 ((3/100) * inch)] ∧
    (generate_story janeRecord).filter (fun b => blockStyle b == some "SectionHeader") =
      [] := by
  refine ⟨fun sw => ⟨rfl, rfl⟩, ?_, ?_, ?_⟩
  · intro p
    constructor
    · cases hn : p.name <;> by_cases hc : contact_info p = [] <;>
        simp [personal_blocks, blockStyle, hn, hc]
    · cases hn : p.name <;> by_cases hc : contact_info p = [] <;>
        simp [personal_blocks, blockStyle, hn, hc]
  · rfl
  · rfl

/-- Claim C6: the run exits with code 0 exactly when the input file
exists, parses, and the document builds; a missing input file exits
with code 1 before any output document is written, and one of the
diagnostic lines printed contains the configured input file name. -/
theorem C6_exit_codes :
    (∀ w : World, (main_run w).exitCode = 0 ∨ (main_run w).exitCode = 1) ∧
    (∀ w : World, (main_run w).exitCode = 0 ↔
      (w.inputExists = true ∧ w.parseResult.isSome = true ∧ w.buildOk = true)) ∧
    (∀ w : World, w.inputExists = false →
      (main_run w).exitCode = 1 ∧ (main_run w).outputWritten = false ∧
      ∃ msg, msg ∈ (main_run w).printed ∧ occursIn input_file msg) := by
  refine ⟨?_, ?_, ?_⟩
  · intro w
    rcases w with ⟨ie, pr, bo⟩
    cases ie <;> cases pr <;> cases bo <;>
      simp [main_run, parse_input_file, generate_pdf]
  · intro w
    rcases w with ⟨ie, pr, bo⟩
    cases ie <;> cases pr <;> cases bo <;>
      simp [main_run, parse_input_file, generate_pdf]
  · intro w h
    rcases w with ⟨ie, pr, bo⟩
    cases ie
    · refine ⟨rfl, rfl,
        "Error: " ++ ("Input file " ++ input_file ++ " not found!"), ?_,
        "Error: Input file ", " not found!", rfl⟩
      simp [main_run, parse_input_file]
    · simp at h

/-- Claim C6, witness: a run with the input present, parsing to the
empty mapping and building, exits 0; a run with the input missing exits
1, writes nothing, and prints a line containing the input file name. -/
theorem C6_exit_codes_witness :
    ((main_run ⟨true, some noKeysRecord, true⟩).exitCode = 0 ↔
      ((true : Bool) = true ∧ (some noKeysRecord).isSome = true ∧ (true : Bool) = true)) ∧
    ((main_run ⟨false, none, true⟩).exitCode = 1 ∧
      (main_run ⟨false, none, true⟩).outputWritten = false ∧
      ∃ msg, msg ∈ (main_run ⟨false, none, true⟩).printed ∧ occursIn input_file msg) :=
  ⟨C6_exit_codes.2.1 ⟨true, some noKeysRecord, true⟩,
   C6_exit_codes.2.2 ⟨false, none, true⟩ rfl⟩

/-- Claim C7: a non-empty skills list renders as the section header, the
separator, exactly one body paragraph joining the skills in order with
a comma and a space, and the trailing spacer; the spec scenario list
joins to the single line reading the three names comma-separated. -/
theorem C7_skills_join :
    (∀ skills : List String, skills ≠ [] →
      skills_blocks (some skills) =
        [Block.paragraph "TECHNICAL SKILLS" "SectionHeader",
         Block.hr "100%" (1/2) Color.black,
         Block.spacer 1 ((8/100) * inch),
         Block.paragraph (String.intercalate ", " skills) "Description",
         Block.spacer 1 ((1/10) * inch)]) ∧
    String.intercalate ", " ["Python", "Go", "SQL"] = "Python, Go, SQL" := by
  constructor
  · intro skills h
    simp [skills_blocks, h, section_separator_blocks]
  · rfl

/-- Claim C7, witness: the skills section evaluated on the scenario
list, producing the single joined body line. -/
theorem C7_skills_join_witness :
    skills_blocks (some ["Python", "Go", "SQL"]) =
      [Block.paragraph "TECHNICAL SKILLS" "SectionHeader",
       Block.hr "100%" (1/2) Color.black,
       Block.spacer 1 ((8/100) * inch),
       Block.paragraph "Python, Go, SQL" "Description",
       Block.spacer 1 ((1/10) * inch)] := by
  rw [C7_skills_join.1 ["Python", "Go", "SQL"] (by decide)]
  rfl

/-- Claim C8: every responsibility bullet is rendered as a paragraph in
the `BulletPoint` style, whose body left indent equals the measured
width of the marker-plus-space string in the body font and size
(Helvetica 11) and whose first-line indent is the negation of that
width — the hanging-indent geometry that aligns wrapped continuation
lines under the first character after the marker. -/
theorem C8_bullet_hanging_indent :
    ∀ sw : SW,
      (stylesheet sw "BulletPoint").leftIndent = sw "- " "Helvetica" 11 ∧
      (stylesheet sw "BulletPoint").firstLineIndent =
        -((stylesheet sw "BulletPoint").leftIndent) ∧
      (stylesheet sw "BulletPoint").fontName = "Helvetica" ∧
      (stylesheet sw "BulletPoint").fontSize = 11 ∧
      ∀ exp : ExperienceEntry,
        (experience_entry_blocks exp).filter (fun b => blockStyle b == some "BulletPoint") =
          (exp.responsibilities.getD []).map
            (fun r => Block.paragraph ("- " ++ r) "BulletPoint") := by
  intro sw
  refine ⟨rfl, rfl, rfl, rfl, ?_⟩
  intro exp
  rcases exp with ⟨c, l, t, dur, rs⟩
  cases c <;> cases l <;> cases t <;> cases dur <;> cases rs <;>
    simp [experience_entry_blocks, blockStyle, List.filter_map, Function.comp] <;>
    (congr 1; rw [List.filter_eq_self]; intro r _; rfl)

/-- Claim C9: on a non-empty projects list the Projects header is
appended with no horizontal rule anywhere in the section, while the
Experience, Education, Skills and Certifications headers are each
immediately followed by the horizontal-rule block and the
post-separator spacer. -/
theorem C9_projects_header_separator :
    (∀ ps : List ProjectEntry, ps ≠ [] →
      projects_blocks (some ps) =
        Block.paragraph "PROJECTS" "SectionHeader" ::
          (ps.map project_entry_blocks).flatten ∧
      (projects_blocks (some ps)).filter isHR = []) ∧
    (∀ exps : List ExperienceEntry, exps ≠ [] →
      experience_blocks (some exps) =
        Block.paragraph "PROFESSIONAL EXPERIENCE" "SectionHeader" ::
          Block.hr "100%" (1/2) Color.black :: Block.spacer 1 ((8/100) * inch) ::
          (exps.map experience_entry_blocks).flatten) ∧
    (∀ edus : List EducationEntry, edus ≠ [] →
      education_blocks (some edus) =
        Block.paragraph "EDUCATION" "SectionHeader" ::
          Block.hr "100%" (1/2) Color.black :: Block.spacer 1 ((8/100) * inch) ::
          (edus.map education_entry_blocks).flatten) ∧
    (∀ skills : List String, skills ≠ [] →
      skills_blocks (some skills) =
        Block.paragraph "TECHNICAL SKILLS" "SectionHeader" ::
          Block.hr "100%" (1/2) Color.black :: Block.spacer 1 ((8/100) * inch) ::
          [Block.paragraph (String.intercalate ", " skills) "Description",
           Block.spacer 1 ((1/10) * inch)]) ∧
    (∀ certs : List String, certs ≠ [] →
      certifications_blocks (some certs) =
        Block.paragraph "CERTIFICATIONS" "SectionHeader" ::
          Block.hr "100%" (1/2) Color.black :: Block.spacer 1 ((8/100) * inch) ::
          certs.map (fun cert => Block.paragraph ("• " ++ cert) "Description")) := by
  refine ⟨?_, ?_, ?_, ?_, ?_⟩
  · intro ps h
    constructor
    · simp [projects_blocks, h]
    · rw [List.filter_eq_nil_iff]
      intro b hb
      simp only [projects_blocks, if_neg h, List.mem_cons] at hb
      rcases hb with rfl | hb
      · simp [isHR]
      · rw [List.mem_flatten] at hb
        obtain ⟨lb, hlb, hbl⟩ := hb
        rw [List.mem_map] at hlb
        obtain ⟨p, _, rfl⟩ := hlb
        simp [project_entry_blocks_no_hr p b hbl]
  · intro exps h
    simp [experience_blocks, h, section_separator_blocks]
  · intro edus h
    simp [education_blocks, h, section_separator_blocks]
  · intro skills h
    simp [skills_blocks, h, section_separator_blocks]
  · intro certs h
    simp [certifications_blocks, h, section_separator_blocks]

/-- Claim C9, witness: the five sections evaluated on concrete singleton
inputs — the Projects section holds only its header and the project
line with no horizontal rule, the other four interleave header, rule
and spacer. -/
theorem C9_projects_header_separator_witness :
    projects_blocks (some [⟨some "P", none, none, none⟩]) =
      [Block.paragraph "PROJECTS" "SectionHeader",
       Block.paragraph "<b>P</b>" "JobTitle",
       Block.spacer 1 ((1/10) * inch)] ∧
    (projects_blocks (some [⟨some "P", none, none, none⟩])).filter isHR = [] ∧
    experience_blocks (some [acmeEntry]) =
      [Block.paragraph "PROFESSIONAL EXPERIENCE" "SectionHeader",
       Block.hr "100%" (1/2) Color.black,
       Block.spacer 1 ((8/100) * inch),
       Block.paragraph "- Built things" "BulletPoint",
       Block.spacer 1 ((5/100) * inch)] ∧
    education_blocks (some [⟨none, none, none, none⟩]) =
      [Block.paragraph "EDUCATION" "SectionHeader",
       Block.hr "100%" (1/2) Color.black,
       Block.spacer 1 ((8/100) * inch)] ∧
    skills_blocks (some ["Python"]) =
      [Block.paragraph "TECHNICAL SKILLS" "SectionHeader",
       Block.hr "100%" (1/2) Color.black,
       Block.spacer 1 ((8/100) * inch),
       Block.paragraph "Python" "Description",
       Block.spacer 1 ((1/10) * inch)] ∧
    certifications_blocks (some ["CKA"]) =
      [Block.paragraph "CERTIFICATIONS" "SectionHeader",
       Block.hr "100%" (1/2) Color.black,
       Block.spacer 1 ((8/100) * inch),
       Block.paragraph "• CKA" "Description"] := by
  refine ⟨?_, ?_, ?_, ?_, ?_, ?_⟩
  · rw [(C9_projects_header_separator.1 [⟨some "P", none, none, none⟩] (by decide)).1]
    rfl
  · exact (C9_projects_header_separator.1 [⟨some "P", none, none, none⟩] (by decide)).2
  · rw [C9_projects_header_separator.2.1 [acmeEntry] (by decide)]
    rfl
  · rw [C9_projects_header_separator.2.2.1 [⟨none, none, none, none⟩] (by decide)]
    rfl
  · rw [C9_projects_header_separator.2.2.2.1 ["Python"] (by decide)]
    rfl
  · rw [C9_projects_header_separator.2.2.2.2 ["CKA"] (by decide)]
    rfl
